import Mathlib

/-!
Verification of the solid-motionone adapter (src/index.js): a Solid.js
binding layer for the Motion One animation engine.  We shallowly embed
the decision logic of the `Presence` coordinator and of the per-element
state binder `createAndBindMotionState`, together with the event
semantics of the `motioncomplete` listener registration, and prove the
specified properties about exit deferral, presence-flag semantics,
option overriding, update wiring, defaults, the `Motion` proxy, and
parent-state propagation.
-/

/-- A minimal model of the JavaScript values that flow through the props
and options of this adapter: `undefined`, booleans, numbers, strings. -/
inductive JSVal where
  | undef : JSVal
  | jsBool : Bool → JSVal
  | jsNum : Int → JSVal
  | jsStr : String → JSVal
deriving DecidableEq

/-- JavaScript truthiness, as used by `if (x)`, `x && y` and `x ? a : b`
in the source. -/
def truthy : JSVal → Bool
  | JSVal.undef => false
  | JSVal.jsBool b => b
  | JSVal.jsNum n => decide (n ≠ 0)
  | JSVal.jsStr s => decide (s ≠ "")

/-- The animation options object passed to `createMotionState` /
`state.update`.  Only the keys this layer itself inspects are modelled;
the engine consumes the rest opaquely. -/
structure Options where
  initial : JSVal := JSVal.undef
  animate : JSVal := JSVal.undef
  exit : JSVal := JSVal.undef
deriving DecidableEq

/-- The slice of a Motion One `MotionState` visible to this layer:
`state.getOptions()` (src/index.js line 48). -/
structure MotionState where
  options : Options
deriving DecidableEq

/-- `state.getOptions()`. -/
def getOptions (s : MotionState) : Options := s.options

/- ### Presence (src/index.js lines 31-61) -/

/-- Line 32: `let initial = props.initial !== false;` — the value of the
mutable `initial` variable at Presence construction. -/
def presenceInitialVar (propsInitial : JSVal) : Bool :=
  if propsInitial = JSVal.jsBool false then false else true

/-- Lines 35 and 59: the PresenceContext value is the closure
`() => initial`, and line 59 reassigns `initial = true` after the first
render tree has been built, so a read of the context function yields the
constructor-time value during the first render and `true` afterwards. -/
def presenceContextValue (propsInitial : JSVal) (afterFirstRender : Bool) : Bool :=
  if afterFirstRender then true else presenceInitialVar propsInitial

/-- Line 44: `mode: props.exitBeforeEnter ? "out-in" : "parallel"`. -/
def presenceMode (exitBeforeEnter : JSVal) : String :=
  if truthy exitBeforeEnter then "out-in" else "parallel"

/-- Line 39: Presence renders its children under
`ParentContext.Provider` with `value: undefined`. -/
def presenceParentContextValue : Option Nat := none

/- ### onCompleteExit and the Presence onExit handler
(src/index.js lines 46-49 and 63) -/

/-- Observable result of one `onExit(el, remove)` invocation:
how many times `remove` has been called, and how many `motioncomplete`
listeners wrapping `remove` are currently registered on the element. -/
structure ExitState where
  removeCalls : Nat
  completeListeners : Nat
deriving DecidableEq

/-- The condition `state && state.getOptions().exit` of line 48, where
`state = mountedStates.get(el)` may be absent. -/
def presenceExitCond (state : Option MotionState) : Bool :=
  match state with
  | some st => truthy (getOptions st).exit
  | none => false

/-- Lines 47-48: `const state = mountedStates.get(el); if (state &&
state.getOptions().exit) onCompleteExit(el, remove); else remove();`.
`onCompleteExit` (line 63) is `el.addEventListener("motioncomplete", fn)`:
it registers a listener and calls nothing yet. -/
def presenceOnExit (state : Option MotionState) : ExitState :=
  match state with
  | some st =>
      if truthy (getOptions st).exit then
        { removeCalls := 0, completeListeners := 1 }
      else
        { removeCalls := 1, completeListeners := 0 }
  | none => { removeCalls := 1, completeListeners := 0 }

/-- Dispatch of one `motioncomplete` event on the element: every
registered listener runs once.  Line 63 registers with plain
`addEventListener` — no `once` option and no later `removeEventListener`
— so the listener stays registered after firing. -/
def dispatchMotionComplete (s : ExitState) : ExitState :=
  { s with removeCalls := s.removeCalls + s.completeListeners }

/-- `n` successive `motioncomplete` dispatches. -/
def dispatchMotionCompleteN : Nat → ExitState → ExitState
  | 0, s => s
  | n + 1, s => dispatchMotionComplete (dispatchMotionCompleteN n s)

/- ### createAndBindMotionState (src/index.js lines 66-81) -/

/-- Lines 67-69: `createMotionState(presenceState?.() === false ?
{ ...options(), initial: false } : options(), parentState)` — the options
actually handed to the engine at construction.  `presenceState` is the
PresenceContext function or `undefined`; its current return value is the
`Option Bool`. -/
def createMotionStateOptions (presenceState : Option Bool) (opts : Options) : Options :=
  if presenceState = some false then { opts with initial := JSVal.jsBool false } else opts

/-- Observable result of the binder cleanup path (lines 72-77): calls of
`state.setActive("exit", true)`, calls of the raw `unmount` procedure,
and `motioncomplete` listeners wrapping `unmount` registered on the
element. -/
structure CleanupState where
  setActiveExitCalls : Nat
  unmountCalls : Nat
  completeListeners : Nat
deriving DecidableEq

/-- Lines 73-76: `if (presenceState && options().exit) {
state.setActive("exit", true); onCompleteExit(el(), unmount); } else
unmount();` — `presenceState` is truthy exactly when a PresenceContext
function is present (its boolean value is irrelevant here); the options
are re-read at cleanup time. -/
def binderOnCleanup (presenceState : Option Bool) (opts : Options) : CleanupState :=
  if presenceState.isSome && truthy opts.exit then
    { setActiveExitCalls := 1, unmountCalls := 0, completeListeners := 1 }
  else
    { setActiveExitCalls := 0, unmountCalls := 1, completeListeners := 0 }

/-- Dispatch of one `motioncomplete` event during/after cleanup: every
registered listener (here the deferred `unmount`) runs once and, being
registered without `once`, stays registered. -/
def cleanupDispatchComplete (s : CleanupState) : CleanupState :=
  { s with unmountCalls := s.unmountCalls + s.completeListeners }

/- ### Options source normalization and update wiring
(src/index.js lines 78 and 91-92) -/

/-- A user-supplied options source: either a plain object (static) or a
zero-argument producer; a producer is modelled as a function from the
index of its evaluation to the produced options. -/
inductive OptionsArg where
  | obj : Options → OptionsArg
  | fn : (Nat → Options) → OptionsArg

/-- `isFunction` from `@motionone/utils`, applied to an options source. -/
def isFunction : OptionsArg → Bool
  | OptionsArg.obj _ => false
  | OptionsArg.fn _ => true

/-- Line 92: `typeof options === "function" ? options : () => options` —
`createMotion` normalizes its options argument to a function before
passing it to `createAndBindMotionState`. -/
def createMotionOptionsArg : OptionsArg → OptionsArg
  | OptionsArg.fn f => OptionsArg.fn f
  | OptionsArg.obj o => OptionsArg.fn (fun _ => o)

/-- Line 78: `isFunction(options) && createEffect(() => state.update(options()))`
— whether the reactive update effect is installed for the options
argument `createAndBindMotionState` received. -/
def updateWiringInstalled (optionsArg : OptionsArg) : Bool := isFunction optionsArg

/-- Number of `state.update` calls produced by line 78 when the
installed effect body executes `effectRuns` times (Solid runs an
installed effect once initially and once per dependency change); an
uninstalled effect never runs. -/
def updateCallCount (optionsArg : OptionsArg) (effectRuns : Nat) : Nat :=
  if updateWiringInstalled optionsArg then effectRuns else 0

/-- `update` calls observed for a user options source passed through
`createMotion` (normalization of line 92 followed by line 78). -/
def createMotionUpdateCallCount (userOptions : OptionsArg) (effectRuns : Nat) : Nat :=
  updateCallCount (createMotionOptionsArg userOptions) effectRuns

/-- The argument of the `k`-th `state.update(options())` call of line 78:
the raw result of the options function, with no presence override. -/
def updateOptionsArgAt (optionsFn : Nat → Options) (k : Nat) : Options :=
  optionsFn k

/- ### Call sites of createMotionState: parent-state propagation
(src/index.js lines 66-69, 91-92, 107-109, 116-119) -/

/-- The arguments this layer passes to the engine's `createMotionState`. -/
structure MotionStateCallArgs where
  options : Options
  parentState : Option Nat
deriving DecidableEq

/-- Lines 66-69: the `createMotionState` call made by
`createAndBindMotionState`, with the presence override applied to the
options and `parentState` forwarded unchanged. -/
def createAndBindCallArgs (optionsFn : Nat → Options) (presenceState : Option Bool)
    (parentState : Option Nat) : MotionStateCallArgs :=
  { options := createMotionStateOptions presenceState (optionsFn 0)
  , parentState := parentState }

/-- Line 92: `createAndBindMotionState(() => target, ..., presenceState)`
— `createMotion` passes only three arguments, so `parentState` is
`undefined`. -/
def createMotionCallArgs (optionsFn : Nat → Options) (presenceState : Option Bool) :
    MotionStateCallArgs :=
  createAndBindCallArgs optionsFn presenceState none

/-- Lines 107-109: the `motion` directive calls
`createMotion(el, props, useContext(PresenceContext))`. -/
def motionDirectiveCallArgs (optionsFn : Nat → Options) (presenceCtx : Option Bool) :
    MotionStateCallArgs :=
  createMotionCallArgs optionsFn presenceCtx

/-- Lines 116-119: `MotionComponent` calls `createAndBindMotionState`
with `useContext(PresenceContext)` and `useContext(ParentContext)`. -/
def motionComponentCallArgs (options : Options) (presenceCtx : Option Bool)
    (parentCtx : Option Nat) : MotionStateCallArgs :=
  createAndBindCallArgs (fun _ => options) presenceCtx parentCtx

/- ### The Motion proxy and MotionComponent tag
(src/index.js lines 131-133 and 203-207) -/

/-- The props slice relevant to tag dispatch. -/
structure ComponentProps where
  tag : JSVal := JSVal.undef
deriving DecidableEq

/-- Lines 203-207: `Motion[tag]` yields `props =>
createComponent(MotionComponent, mergeProps(props, { tag: tag }))`;
`mergeProps` lets the later source win, so the accessed property name
overrides any `tag` already in `props`. -/
def motionProxyProps (props : ComponentProps) (tag : String) : ComponentProps :=
  { props with tag := JSVal.jsStr tag }

/-- Lines 131-133: the element `MotionComponent` renders,
`props.tag || "div"`. -/
def motionComponentTag (props : ComponentProps) : JSVal :=
  if truthy props.tag then props.tag else JSVal.jsStr "div"

/- ### Spec-modelled switch-transition semantics -/

/-- Modelled from the spec: the mode semantics of `createSwitchTransition`
(from `@solid-primitives/transition-group`, an external dependency not
under src/).  Per the spec, in "out-in" mode the replacement child's
entrance is not mounted until all pending exit removals have completed;
in "parallel" mode the replacement mounts immediately, concurrently with
any exits.  `switchTransitionMountsNow mode pendingExits` tells whether
the replacement child mounts while `pendingExits` exits are still
pending. -/
def switchTransitionMountsNow (mode : String) (pendingExits : Nat) : Bool :=
  if mode = "out-in" then decide (pendingExits = 0) else true

/- ### Claim theorems -/

/-- Claim C1: on binder cleanup, when a presence context function is
present and the options currently declare an `exit` target, the raw
unmount procedure is not called; instead `setActive("exit", true)` is
called once and a `motioncomplete` listener wrapping the unmount
procedure is registered, so the unmount runs only once the
animation-complete signal fires; when no presence context is present or
no `exit` target is declared, the unmount procedure is called exactly
once, synchronously, with no listener registered. -/
theorem binder_cleanup_exit_deferral (p : Option Bool) (opts : Options) :
    ((binderOnCleanup p opts).unmountCalls = 0 ∧
      (binderOnCleanup p opts).setActiveExitCalls = 1 ∧
      (binderOnCleanup p opts).completeListeners = 1
      ↔ p.isSome = true ∧ truthy opts.exit = true) ∧
    ((binderOnCleanup p opts).unmountCalls = 1 ∧
      (binderOnCleanup p opts).setActiveExitCalls = 0 ∧
      (binderOnCleanup p opts).completeListeners = 0
      ↔ p.isSome = false ∨ truthy opts.exit = false) ∧
    (cleanupDispatchComplete (binderOnCleanup p opts)).unmountCalls = 1 := by
  unfold binderOnCleanup cleanupDispatchComplete
  cases p <;> cases h : truthy opts.exit <;> simp [h]

/-- Claim C2: on a Presence child removal, the removal callback is
invoked immediately (exactly once, no listener registered) precisely
when no animation state is recorded for the element or the recorded
state's options declare no `exit` target; when an `exit` target is
declared, the callback is not invoked yet, a `motioncomplete` listener
holding it is registered, and it has been invoked exactly once after the
animation-complete signal is dispatched. -/
theorem presence_onExit_removal (s : Option MotionState) :
    presenceExitCond none = false ∧
    ((presenceOnExit s).removeCalls = 1 ∧ (presenceOnExit s).completeListeners = 0
      ↔ presenceExitCond s = false) ∧
    ((presenceOnExit s).removeCalls = 0 ∧ (presenceOnExit s).completeListeners = 1
      ↔ presenceExitCond s = true) ∧
    (dispatchMotionComplete (presenceOnExit s)).removeCalls = 1 := by
  unfold presenceOnExit presenceExitCond dispatchMotionComplete
  cases s with
  | none => simp
  | some st => cases h : truthy (getOptions st).exit <;> simp [h]

/-- Claim C3 counterexample: a static (non-function) options value
passed to `createMotion` still produces an `update` call — `createMotion`
wraps it in a function before `isFunction(options)` is tested, so the
update effect is installed and its initial run calls `update` once,
refuting "update is never called on the handle". -/
theorem static_options_update_called :
    createMotionUpdateCallCount (OptionsArg.obj {}) 1 = 1 ∧
    createMotionUpdateCallCount (OptionsArg.obj {}) 1 ≠ 0 := by
  constructor
  · rfl
  · intro h
    exact Nat.one_ne_zero ((rfl : createMotionUpdateCallCount (OptionsArg.obj {}) 1 = 1).symm.trans h)

/-- Claim C3 (amended): the `isFunction` guard of line 78 always sees a
function, because callers normalize the options source to a function
first, so the update wiring is always installed; an installed effect
whose body runs `n` times produces exactly `n` `update` calls — in
particular a static source, whose effect has no reactive dependencies and
runs exactly once, produces exactly one `update` call rather than zero. -/
theorem update_wiring_always_installed (u : OptionsArg) (n : Nat) :
    updateWiringInstalled (createMotionOptionsArg u) = true ∧
    createMotionUpdateCallCount u n = n := by
  cases u <;> simp [updateWiringInstalled, createMotionOptionsArg, isFunction,
    createMotionUpdateCallCount, updateCallCount]

/-- Claim C4: the presence context value reads `false` exactly when the
read happens during the first render and the Presence was constructed
with `initial={false}`; any read after the first render yields `true`,
so bindings constructed by later insertions see `true` even though they
share the same context function by reference. -/
theorem presence_flag_first_render_only (propsInitial : JSVal) (afterFirstRender : Bool) :
    (presenceContextValue propsInitial afterFirstRender = false
      ↔ afterFirstRender = false ∧ propsInitial = JSVal.jsBool false) ∧
    presenceContextValue propsInitial true = true := by
  unfold presenceContextValue presenceInitialVar
  cases afterFirstRender <;> by_cases h : propsInitial = JSVal.jsBool false <;> simp [h]

/-- Claim C5: when the presence function is present and currently
returns `false`, the options handed to `createMotionState` are the
options function's result with `initial` forced to `false`; when the
presence function is absent or returns `true`, the result is passed
unchanged; and every later `update` call receives the raw result of the
options function with no override. -/
theorem initial_override_construction_only (opts : Options) (f : Nat → Options) (k : Nat) :
    createMotionStateOptions (some false) opts = { opts with initial := JSVal.jsBool false } ∧
    createMotionStateOptions none opts = opts ∧
    createMotionStateOptions (some true) opts = opts ∧
    updateOptionsArgAt f k = f k :=
  ⟨rfl, rfl, rfl, rfl⟩

/-- Claim C6 counterexample: the `motioncomplete` listener registered by
`onCompleteExit` is not one-shot — it is added with plain
`addEventListener` and never removed, so if the event is dispatched
twice the deferred removal callback runs twice, refuting "invoked at
most once per exit". -/
theorem exit_listener_double_fire :
    (dispatchMotionCompleteN 2 (presenceOnExit
      (some { options := { exit := JSVal.jsBool true } }))).removeCalls = 2 ∧
    ¬ (dispatchMotionCompleteN 2 (presenceOnExit
      (some { options := { exit := JSVal.jsBool true } }))).removeCalls ≤ 1 := by
  constructor <;> decide

/-- Claim C6 (amended): the listener registered for a deferred exit is
persistent, not one-shot: after `n` dispatches of `motioncomplete` the
deferred removal callback has run exactly `n` times and the listener is
still registered; it runs at most once only if the event fires at most
once. -/
theorem exit_callback_fires_per_event (opts : Options) (n : Nat)
    (h : truthy opts.exit = true) :
    (dispatchMotionCompleteN n (presenceOnExit (some { options := opts }))).removeCalls = n ∧
    (dispatchMotionCompleteN n (presenceOnExit (some { options := opts }))).completeListeners = 1 := by
  induction n with
  | zero => simp [dispatchMotionCompleteN, presenceOnExit, getOptions, h]
  | succ n ih => simp [dispatchMotionCompleteN, dispatchMotionComplete, ih.1, ih.2]

/-- Witness for the amended Claim C6 theorem at a concrete exit target
and three dispatches. -/
theorem exit_callback_fires_per_event_witness :
    truthy ({ exit := JSVal.jsBool true } : Options).exit = true ∧
    (dispatchMotionCompleteN 3 (presenceOnExit
      (some { options := { exit := JSVal.jsBool true } }))).removeCalls = 3 :=
  ⟨by decide, (exit_callback_fires_per_event { exit := JSVal.jsBool true } 3 (by decide)).1⟩

/-- Claim C7: Presence selects the `"out-in"` mode exactly when
`exitBeforeEnter` is truthy (for a boolean prop, exactly when it is
`true`) and `"parallel"` otherwise; under the modelled switch-transition
semantics the replacement child mounts while exits are still pending
unless the selected mode is `"out-in"`, in which case it mounts only
once no exits remain pending. -/
theorem exitBeforeEnter_mode_semantics (e : JSVal) (pendingExits : Nat) :
    (presenceMode e = "out-in" ↔ truthy e = true) ∧
    (presenceMode e = "parallel" ↔ truthy e = false) ∧
    (switchTransitionMountsNow (presenceMode e) pendingExits = true
      ↔ (truthy e = true → pendingExits = 0)) := by
  unfold presenceMode switchTransitionMountsNow
  cases h : truthy e <;> simp [h]

/-- Claim C8: an absent `initial` prop (undefined) yields `true` — only
an explicit `false` value disables first-render animation — and an
absent `exitBeforeEnter` prop yields `"parallel"` mode. -/
theorem presence_prop_defaults :
    presenceInitialVar JSVal.undef = true ∧
    (∀ v : JSVal, presenceInitialVar v = false ↔ v = JSVal.jsBool false) ∧
    presenceMode JSVal.undef = "parallel" := by
  refine ⟨rfl, ?_, rfl⟩
  intro v
  unfold presenceInitialVar
  by_cases h : v = JSVal.jsBool false <;> simp [h]

/-- Claim C9: accessing property `tag` on the `Motion` proxy yields a
component whose props carry that tag into `MotionComponent`; a
`MotionComponent` whose `tag` prop is falsy (absent/undefined, or the
empty string) renders a `"div"`, and a truthy tag is rendered as
itself. -/
theorem motion_proxy_tag (props : ComponentProps) (tag : String) :
    (motionProxyProps props tag).tag = JSVal.jsStr tag ∧
    (motionComponentTag (motionProxyProps props tag)
      = if tag = "" then JSVal.jsStr "div" else JSVal.jsStr tag) ∧
    (∀ p : ComponentProps, truthy p.tag = false → motionComponentTag p = JSVal.jsStr "div") ∧
    motionComponentTag { tag := JSVal.undef } = JSVal.jsStr "div" := by
  refine ⟨rfl, ?_, ?_, rfl⟩
  · unfold motionComponentTag motionProxyProps truthy
    by_cases h : tag = "" <;> simp [h]
  · intro p hp
    unfold motionComponentTag
    simp [hp]

/-- Witness for Claim C9 at the concrete tag `"span"` and the concrete
falsy tag `undefined`. -/
theorem motion_proxy_tag_witness :
    (motionProxyProps {} "span").tag = JSVal.jsStr "span" ∧
    motionComponentTag { tag := JSVal.undef } = JSVal.jsStr "div" :=
  ⟨(motion_proxy_tag {} "span").1,
   (motion_proxy_tag {} "span").2.2.1 { tag := JSVal.undef } (by decide)⟩

/-- Claim C10: `createMotion` (and hence the `motion` directive) always
passes `undefined` as the parent state to `createMotionState`; only
`MotionComponent` forwards its ParentContext value as the parent state;
and Presence provides `undefined` as the ParentContext value for its
direct children. -/
theorem parent_state_wiring (f : Nat → Options) (p : Option Bool)
    (o : Options) (ctx : Option Nat) :
    (createMotionCallArgs f p).parentState = none ∧
    (motionDirectiveCallArgs f p).parentState = none ∧
    (motionComponentCallArgs o p ctx).parentState = ctx ∧
    presenceParentContextValue = none :=
  ⟨rfl, rfl, rfl, rfl⟩
